import Mathlib

/-!
Shallow embedding of the outbound-connection (dialer) layer of the
syncthing repository, from src/lib/dialer/internal.go, together with the
hashing-implementation selector from src/lib/sha256/sha256.go.

External collaborators (the Go standard library and x/net/proxy functions
such as net.ResolveIPAddr, net.Dialer.DialContext, url.Parse,
proxy.FromURL, proxy.SOCKS5, proxy.NewPerHost, and the connection
registry lookup registry.Get) are modelled as explicit function
parameters, so every theorem quantifies over their behaviour.
-/

set_option autoImplicit false

namespace Syncthing

/-- Model of net.IPAddr: a resolved IP address, as produced by
net.ResolveIPAddr on the success path. -/
structure IPAddr where
  ip : String
  zone : String
deriving DecidableEq, Repr

/-- net.IPAddr.Network() always returns the literal string ip. -/
def IPAddr.Network (_ : IPAddr) : String := "ip"

/-- net.IPAddr.String() renders the IP, with the zone suffixed when present. -/
def IPAddr.String (a : IPAddr) : String :=
  if a.zone = "" then a.ip else a.ip ++ "%" ++ a.zone

/-- fallbackAddr from internal.go: the literal (network, addr) pair kept
verbatim when resolution fails. -/
structure fallbackAddr where
  network : String
  addr : String
deriving DecidableEq, Repr

/-- fallbackAddr.Network() returns the stored network string. -/
def fallbackAddr.Network (a : fallbackAddr) : String := a.network

/-- fallbackAddr.String() returns the stored address string. -/
def fallbackAddr.String (a : fallbackAddr) : String := a.addr

/-- Model of the net.Addr interface: the address variants that appear in
this layer. Constructor other stands for an arbitrary address owned by an
underlying transport connection. -/
inductive Addr where
  | ip (a : IPAddr)
  | fallback (a : fallbackAddr)
  | other (network str : String)
deriving DecidableEq, Repr

/-- Dispatch of the Network() method over the address variants. -/
def Addr.Network : Addr → String
  | .ip a => a.Network
  | .fallback a => a.Network
  | .other network _ => network

/-- Dispatch of the String() method over the address variants. -/
def Addr.String : Addr → String
  | .ip a => a.String
  | .fallback a => a.String
  | .other _ str => str

/-- Model of the net.Conn values flowing through dialWithFallback: a base
transport connection carries its local and remote addresses and a flag
recording whether SetTCPOptions has been applied; dialerConn is the
wrapper type from internal.go that embeds a connection together with a
stored address. -/
inductive NetConn where
  | base (localAddr remoteAddr : Addr) (tcpOptionsSet : Bool)
  | dialerConn (conn : NetConn) (addr : Addr)
deriving DecidableEq, Repr

/-- RemoteAddr(): a base connection reports the transport remote address;
dialerConn overrides it to return the stored address. -/
def NetConn.RemoteAddr : NetConn → Addr
  | .base _ remoteAddr _ => remoteAddr
  | .dialerConn _ addr => addr

/-- Modelled from the spec: SetTCPOptions is the socket-hardening hook
(an external collaborator of this layer, not part of internal.go) that
applies OS-level keep-alive and buffer tuning to the underlying socket;
it touches socket options only, never the connection addresses. We record
its application as a flag on the base connection. -/
def SetTCPOptions : NetConn → NetConn
  | .base localAddr remoteAddr _ => .base localAddr remoteAddr true
  | .dialerConn conn addr => .dialerConn (SetTCPOptions conn) addr

/-- dialFunc from internal.go: func(network, addr string) (net.Conn, error). -/
def DialFunc : Type := String → String → Except String NetConn

/-- newDialerAddr from internal.go: resolve the (network, addr) pair via
net.ResolveIPAddr (passed in as the resolve parameter); on success return
the resolved address, on failure return the literal fallbackAddr. -/
def newDialerAddr (resolve : String → String → Option IPAddr)
    (network addr : String) : Addr :=
  match resolve network addr with
  | some netaddr => Addr.ip netaddr
  | none => Addr.fallback ⟨network, addr⟩

/-- One underlying dial attempt performed by dialWithFallback: either the
proxy-path dial function or the direct fallback dial function. -/
inductive Attempt where
  | proxy
  | direct
deriving DecidableEq, Repr

/-- dialWithFallback from internal.go. Alongside the Go result pair we
return the list of underlying dial attempts actually performed, in order,
so that the attempt-count behaviour is stated explicitly. -/
def dialWithFallback (resolve : String → String → Option IPAddr)
    (noFallback : Bool) (proxyDialFunc fallbackDialFunc : DialFunc)
    (network addr : String) : Except String NetConn × List Attempt :=
  match proxyDialFunc network addr with
  | .ok conn =>
      (.ok (NetConn.dialerConn (SetTCPOptions conn)
        (newDialerAddr resolve network addr)), [.proxy])
  | .error err =>
      if noFallback then
        (.error err, [.proxy])
      else
        match fallbackDialFunc network addr with
        | .ok conn => (.ok (SetTCPOptions conn), [.proxy, .direct])
        | .error e => (.error e, [.proxy, .direct])

/-- url.Userinfo: a username and an optional password. -/
structure Userinfo where
  username : String
  password : Option String
deriving DecidableEq, Repr

/-- The parts of url.URL that getDialer and socksDialerFunction read. -/
structure URL where
  host : String
  user : Option Userinfo
deriving DecidableEq, Repr

/-- proxy.Auth: SOCKS5 credentials; both fields default to empty strings
in Go, and the password stays empty when the URL carries none. -/
structure Auth where
  user : String
  password : String
deriving DecidableEq, Repr

/-- socksDialerFunction from internal.go, generic over the dialer type of
the proxy library: builds the optional Auth from the URL user-info and
hands everything to the proxy.SOCKS5 constructor (the socks5 parameter). -/
def socksDialerFunction {α : Type}
    (socks5 : String → String → Option Auth → α → Except String α)
    (u : URL) (forward : α) : Except String α :=
  let auth : Option Auth :=
    match u.user with
    | none => none
    | some user =>
      let a : Auth := ⟨user.username, ""⟩
      match user.password with
      | some p => some { a with password := p }
      | none => some a
  socks5 ("tcp") u.host auth forward

/-- getDialer from internal.go, generic over the dialer type: reads the
all/no proxy configuration strings and builds the dialer chain, degrading
to the forward dialer on every configuration error. url.Parse,
proxy.FromURL and the NewPerHost/AddFromString pair are passed in as
parseURL, fromURL and newPerHost. -/
def getDialer {α : Type} (allProxy noProxy : String)
    (parseURL : String → Except String URL)
    (fromURL : URL → α → Except String α)
    (newPerHost : α → α → String → α)
    (forward : α) : α :=
  if allProxy.length = 0 then forward
  else
    match parseURL allProxy with
    | .error _ => forward
    | .ok proxyURL =>
      match fromURL proxyURL forward with
      | .error _ => forward
      | .ok prxy =>
        if noProxy.length = 0 then prxy
        else newPerHost prxy forward noProxy

/-- Model of net.TCPAddr as stored in the connection registry. -/
structure TCPAddr where
  ip : String
  port : Nat
deriving DecidableEq, Repr

/-- The fields of net.Dialer that dialContextReusePort sets: whether the
ReusePortControl callback is installed, and the bound local address. -/
structure NetDialer where
  control : Bool
  localAddr : Option TCPAddr
deriving DecidableEq, Repr

/-- dialContextReusePort from internal.go: build a net.Dialer with the
reuse-port control installed, bind the local address when the registry
lookup (registryGet, already ordered by tcpAddrLess) yields one, and
perform the single DialContext call (dialContext, with the caller context
absorbed into it). The returned list records each dial performed with the
dialer configuration it used. -/
def dialContextReusePort (registryGet : String → Option TCPAddr)
    (dialContext : NetDialer → String → String → Except String NetConn)
    (network addr : String) :
    Except String NetConn × List (NetDialer × String × String) :=
  let dialer0 : NetDialer := ⟨true, none⟩
  let dialer : NetDialer :=
    match registryGet network with
    | some localAddrInterface => { dialer0 with localAddr := some localAddrInterface }
    | none => dialer0
  (dialContext dialer network addr, [(dialer, network, addr)])

/-- The three hashing implementations selectable in sha256.go. -/
inductive HashImpl where
  | crypto
  | minio
  | minioAvx512
deriving DecidableEq, Repr

/-- The selection logic of SelectAlgo from sha256.go, as a function of the
STHASHING environment value and the three measured benchmark rates; it
returns which implementation ends up selected (crypto is both the initial
default and the value kept by the empty case arm and the default arm). -/
def SelectAlgo (sthashing : String)
    (cryptoPerf minioPerf minioAvx512Perf : ℚ) : HashImpl :=
  match sthashing with
  | "" =>
    let bestPerf := max (max minioPerf minioAvx512Perf) cryptoPerf
    if bestPerf = minioPerf then HashImpl.minio
    else if bestPerf = minioAvx512Perf then HashImpl.minioAvx512
    else HashImpl.crypto
  | "minio" => HashImpl.minio
  | "minio-avx512" => HashImpl.minioAvx512
  | _ => HashImpl.crypto

/-- Resolver double on which net.ResolveIPAddr always fails (as it does
for every network argument such as tcp that is not an IP network). -/
def noResolve : String → String → Option IPAddr := fun _ _ => none

/-- A concrete transport remote address used by the test doubles. -/
def sampleRemote : Addr := Addr.other ("tcp") ("9.9.9.9:1")

/-- A concrete freshly dialled transport connection. -/
def sampleConn : NetConn :=
  NetConn.base (Addr.other ("tcp") ("10.0.0.2:5")) sampleRemote false

/-- Dial-function double that always fails. -/
def refuseDial : DialFunc := fun _ _ => Except.error ("connection refused")

/-- Dial-function double that always succeeds with sampleConn. -/
def acceptDial : DialFunc := fun _ _ => Except.ok sampleConn

/-- URL-parser double that always fails. -/
def badParse : String → Except String URL := fun _ => Except.error ("bad url")

/-- Proxy-constructor double over Nat dialers that returns the forward
dialer successfully. -/
def keepFromURL : URL → Nat → Except String Nat := fun _ f => Except.ok f

/-- Per-host wrapper double over Nat dialers. -/
def natPerHost : Nat → Nat → String → Nat := fun p _ _ => p

/-- SOCKS5-constructor double over Nat dialers that succeeds with the
forward dialer. -/
def keepSocks5 : String → String → Option Auth → Nat → Except String Nat :=
  fun _ _ _ f => Except.ok f

/-- A concrete URL with a username and no password. -/
def sampleURL : URL := ⟨("proxy.example:1080"), some ⟨("alice"), none⟩⟩

/-- SetTCPOptions only flips the hardening flag: it never changes what
RemoteAddr() reports, on base connections or through dialerConn wrappers. -/
theorem SetTCPOptions_RemoteAddr (c : NetConn) :
    (SetTCPOptions c).RemoteAddr = c.RemoteAddr := by
  cases c <;> rfl

/-- Claim C1 counterexample: at a concrete input whose proxy-path dial
fails and whose fallback dial succeeds, dialWithFallback returns the
fallback connection merely hardened, not wrapped in dialerConn, and its
RemoteAddr() differs from the originally requested endpoint. -/
theorem dialWithFallback_fallback_unwrapped_cx :
    (dialWithFallback noResolve false refuseDial acceptDial
        ("tcp") ("example.com:443")).1 = Except.ok (SetTCPOptions sampleConn)
    ∧ (SetTCPOptions sampleConn).RemoteAddr
        ≠ newDialerAddr noResolve ("tcp") ("example.com:443") :=
  ⟨rfl, by decide⟩

/-- Claim C1 (amended): on the fallback-success path dialWithFallback
applies SetTCPOptions to the direct connection but returns it without the
dialerConn wrapper, so the returned connection reports the underlying
transport remote address, not necessarily the requested endpoint. -/
theorem dialWithFallback_fallback_hardens_only
    (resolve : String → String → Option IPAddr) (pf ff : DialFunc)
    (network addr e : String) (c : NetConn)
    (hp : pf network addr = Except.error e)
    (hf : ff network addr = Except.ok c) :
    (dialWithFallback resolve false pf ff network addr).1
        = Except.ok (SetTCPOptions c)
    ∧ (SetTCPOptions c).RemoteAddr = c.RemoteAddr := by
  refine ⟨?_, SetTCPOptions_RemoteAddr c⟩
  unfold dialWithFallback
  rw [hp, hf]
  rfl

/-- Claim C1 witness: the amended statement instantiated at the concrete
refusing proxy dial and accepting fallback dial. -/
theorem dialWithFallback_fallback_hardens_only_w :
    (dialWithFallback noResolve false refuseDial acceptDial
        ("tcp") ("example.com:443")).1 = Except.ok (SetTCPOptions sampleConn)
    ∧ (SetTCPOptions sampleConn).RemoteAddr = sampleConn.RemoteAddr :=
  dialWithFallback_fallback_hardens_only noResolve refuseDial acceptDial
    ("tcp") ("example.com:443") ("connection refused") sampleConn rfl rfl

/-- Claim C2: a dialerConn wrapper built with newDialerAddr reports
exactly that stored address from RemoteAddr(), and the report is the same
whatever the underlying connection is. -/
theorem dialerConn_RemoteAddr_requested
    (resolve : String → String → Option IPAddr) (u v : NetConn)
    (network addr : String) :
    (NetConn.dialerConn u (newDialerAddr resolve network addr)).RemoteAddr
        = newDialerAddr resolve network addr
    ∧ (NetConn.dialerConn u (newDialerAddr resolve network addr)).RemoteAddr
        = (NetConn.dialerConn v (newDialerAddr resolve network addr)).RemoteAddr :=
  ⟨rfl, rfl⟩

/-- Claim C3: with noFallback set, a proxy-path failure is returned
verbatim and the attempt list shows only the proxy attempt, for every
fallback dial function, so the fallback dialer is never invoked. -/
theorem dialWithFallback_noFallback_error_verbatim
    (resolve : String → String → Option IPAddr) (pf ff : DialFunc)
    (network addr e : String)
    (hp : pf network addr = Except.error e) :
    dialWithFallback resolve true pf ff network addr
      = (Except.error e, [Attempt.proxy]) := by
  unfold dialWithFallback
  rw [hp]
  rfl

/-- Claim C3 witness: the theorem instantiated at the refusing proxy dial
together with an accepting fallback dial that is indeed never consulted. -/
theorem dialWithFallback_noFallback_error_verbatim_w :
    dialWithFallback noResolve true refuseDial acceptDial
        ("tcp") ("example.com:443")
      = (Except.error ("connection refused"), [Attempt.proxy]) :=
  dialWithFallback_noFallback_error_verbatim noResolve refuseDial acceptDial
    ("tcp") ("example.com:443") ("connection refused") rfl

/-- Claim C4: getDialer is total by its type and returns the forward
dialer unchanged whenever the proxy URL string is empty, whenever it
fails to parse, and whenever the proxy constructor rejects it. -/
theorem getDialer_absorbs_config_errors {α : Type} (allProxy noProxy : String)
    (parseURL : String → Except String URL)
    (fromURL : URL → α → Except String α)
    (newPerHost : α → α → String → α) (forward : α) :
    (allProxy = "" →
      getDialer allProxy noProxy parseURL fromURL newPerHost forward = forward)
    ∧ (∀ e, parseURL allProxy = Except.error e →
      getDialer allProxy noProxy parseURL fromURL newPerHost forward = forward)
    ∧ (∀ u e, parseURL allProxy = Except.ok u →
        fromURL u forward = Except.error e →
      getDialer allProxy noProxy parseURL fromURL newPerHost forward = forward) := by
  refine ⟨?_, ?_, ?_⟩
  · intro h
    subst h
    rfl
  · intro e he
    unfold getDialer
    by_cases hl : allProxy.length = 0
    · simp [hl]
    · simp [hl, he]
  · intro u e hu he
    unfold getDialer
    by_cases hl : allProxy.length = 0
    · simp [hl]
    · simp [hl, hu, he]

/-- Claim C4 witness: a parse failure at a concrete configuration leaves
the concrete forward dialer unchanged. -/
theorem getDialer_absorbs_config_errors_w :
    getDialer ("socks5://bad url") ("") badParse keepFromURL natPerHost 7 = 7 :=
  (getDialer_absorbs_config_errors ("socks5://bad url") ("") badParse
    keepFromURL natPerHost 7).2.1 ("bad url") rfl

/-- Claim C5: every dialWithFallback call performs at most two underlying
dial attempts; the attempt list is either just the proxy attempt, or the
proxy attempt followed by one direct attempt, the latter only when the
proxy dial failed and fallback is enabled. -/
theorem dialWithFallback_attempts
    (resolve : String → String → Option IPAddr) (nf : Bool)
    (pf ff : DialFunc) (network addr : String) :
    ((dialWithFallback resolve nf pf ff network addr).2).length ≤ 2
    ∧ ((dialWithFallback resolve nf pf ff network addr).2 = [Attempt.proxy]
      ∨ ((dialWithFallback resolve nf pf ff network addr).2
            = [Attempt.proxy, Attempt.direct]
        ∧ nf = false ∧ ∃ e, pf network addr = Except.error e)) := by
  unfold dialWithFallback
  cases hp : pf network addr with
  | ok c => simp
  | error e =>
    cases nf with
    | true => simp
    | false =>
      cases hf : ff network addr with
      | ok c => exact ⟨by simp, Or.inr ⟨by simp [hf], rfl, e, rfl⟩⟩
      | error e2 => exact ⟨by simp [hf], Or.inr ⟨by simp [hf], rfl, e, rfl⟩⟩

/-- Claim C6: newDialerAddr is total by its type, and on the
resolution-failure branch the fallback address echoes the inputs
verbatim: Network() is the network and String() is the address string. -/
theorem newDialerAddr_fallback_echo
    (resolve : String → String → Option IPAddr) (network addr : String)
    (h : resolve network addr = none) :
    (newDialerAddr resolve network addr).Network = network
    ∧ (newDialerAddr resolve network addr).String = addr := by
  unfold newDialerAddr
  rw [h]
  exact ⟨rfl, rfl⟩

/-- Claim C6 witness: the echo property at the always-failing resolver
and a non-IP address string. -/
theorem newDialerAddr_fallback_echo_w :
    (newDialerAddr noResolve ("tcp") ("example.com:443")).Network = ("tcp")
    ∧ (newDialerAddr noResolve ("tcp") ("example.com:443")).String
        = ("example.com:443") :=
  newDialerAddr_fallback_echo noResolve ("tcp") ("example.com:443") rfl

/-- Claim C7 counterexample: with the direct dialer used for both paths,
a successful dialWithFallback call returns a wrapped connection whose
RemoteAddr() differs from the RemoteAddr() of the connection a single
plain direct dial returns, so the outcomes are not byte-for-byte equal. -/
theorem dialWithFallback_direct_remoteaddr_cx :
    (dialWithFallback noResolve false acceptDial acceptDial
        ("tcp") ("example.com:80")).1
      = Except.ok (NetConn.dialerConn (SetTCPOptions sampleConn)
          (newDialerAddr noResolve ("tcp") ("example.com:80")))
    ∧ acceptDial ("tcp") ("example.com:80") = Except.ok sampleConn
    ∧ (NetConn.dialerConn (SetTCPOptions sampleConn)
          (newDialerAddr noResolve ("tcp") ("example.com:80"))).RemoteAddr
        ≠ sampleConn.RemoteAddr :=
  ⟨rfl, rfl, by decide⟩

/-- Claim C7 (amended): when the proxy path is the direct dialer itself,
dialWithFallback has the same success/failure outcome as one plain direct
dial, with the very same error value on failure; on success, however, the
connection is additionally hardened and wrapped, so its RemoteAddr() is
the requested endpoint rather than what the direct connection reports. -/
theorem dialWithFallback_direct_outcome
    (resolve : String → String → Option IPAddr) (nf : Bool) (d : DialFunc)
    (network addr : String) :
    (∀ e, d network addr = Except.error e →
      (dialWithFallback resolve nf d d network addr).1 = Except.error e)
    ∧ (∀ c, d network addr = Except.ok c →
      (dialWithFallback resolve nf d d network addr).1
          = Except.ok (NetConn.dialerConn (SetTCPOptions c)
              (newDialerAddr resolve network addr))
      ∧ (NetConn.dialerConn (SetTCPOptions c)
            (newDialerAddr resolve network addr)).RemoteAddr
          = newDialerAddr resolve network addr) := by
  constructor
  · intro e he
    unfold dialWithFallback
    rw [he]
    cases nf <;> simp
  · intro c hc
    unfold dialWithFallback
    rw [hc]
    exact ⟨rfl, rfl⟩

/-- Claim C7 witness: the amended statement instantiated at the always
accepting direct dialer, success case. -/
theorem dialWithFallback_direct_outcome_w :
    (dialWithFallback noResolve false acceptDial acceptDial
        ("tcp") ("example.com:80")).1
      = Except.ok (NetConn.dialerConn (SetTCPOptions sampleConn)
          (newDialerAddr noResolve ("tcp") ("example.com:80")))
    ∧ (NetConn.dialerConn (SetTCPOptions sampleConn)
          (newDialerAddr noResolve ("tcp") ("example.com:80"))).RemoteAddr
        = newDialerAddr noResolve ("tcp") ("example.com:80") :=
  (dialWithFallback_direct_outcome noResolve false acceptDial
    ("tcp") ("example.com:80")).2 sampleConn rfl

/-- Claim C8: dialContextReusePort performs exactly one dial; the dialer
it uses always has the reuse-port control installed and has its local
address bound to exactly what the registry lookup returned (none when the
lookup found nothing), and the result of the call is the result of that
single dial. -/
theorem dialContextReusePort_single_dial
    (registryGet : String → Option TCPAddr)
    (dialContext : NetDialer → String → String → Except String NetConn)
    (network addr : String) :
    (dialContextReusePort registryGet dialContext network addr).2
        = [((⟨true, registryGet network⟩ : NetDialer), network, addr)]
    ∧ (dialContextReusePort registryGet dialContext network addr).1
        = dialContext (⟨true, registryGet network⟩ : NetDialer) network addr := by
  unfold dialContextReusePort
  cases h : registryGet network <;> simp [h]

/-- Claim C9: socksDialerFunction passes nil auth when the URL has no
user-info; with user-info present it passes the username and the password
when given, the empty password otherwise, always deferring the outcome to
the SOCKS5 constructor applied to tcp, the URL host, that auth and the
forward dialer (so it fails exactly when the constructor does). -/
theorem socksDialerFunction_auth {α : Type}
    (socks5 : String → String → Option Auth → α → Except String α)
    (u : URL) (forward : α) :
    (u.user = none →
      socksDialerFunction socks5 u forward
        = socks5 ("tcp") u.host none forward)
    ∧ (∀ ui, u.user = some ui →
      socksDialerFunction socks5 u forward
        = socks5 ("tcp") u.host
            (some ⟨ui.username, ui.password.getD ("")⟩) forward) := by
  constructor
  · intro h
    unfold socksDialerFunction
    rw [h]
  · intro ui h
    unfold socksDialerFunction
    rw [h]
    cases hp : ui.password <;> simp [hp]

/-- Claim C9 witness: a URL with a username and no password yields auth
with that username and the empty password, through a concrete
constructor double. -/
theorem socksDialerFunction_auth_w :
    socksDialerFunction keepSocks5 sampleURL 7
      = keepSocks5 ("tcp") ("proxy.example:1080")
          (some ⟨("alice"), ("")⟩) 7 :=
  (socksDialerFunction_auth keepSocks5 sampleURL 7).2 ⟨("alice"), none⟩ rfl

/-- Claim C10: with STHASHING unset, the selection switch resolves exact
ties by case order: minio is selected exactly when its rate equals the
maximum of the three rates (including a tie with crypto); avx512 exactly
when its rate equals the maximum and the minio rate does not; crypto is
kept exactly when neither the minio nor the avx512 rate equals the maximum. -/
theorem SelectAlgo_tie_case_order (c m a : ℚ) :
    (SelectAlgo ("") c m a = HashImpl.minio ↔ max (max m a) c = m)
    ∧ (SelectAlgo ("") c m a = HashImpl.minioAvx512
        ↔ (max (max m a) c = a ∧ max (max m a) c ≠ m))
    ∧ (SelectAlgo ("") c m a = HashImpl.crypto
        ↔ (max (max m a) c ≠ m ∧ max (max m a) c ≠ a)) := by
  have hred : SelectAlgo ("") c m a
      = (if max (max m a) c = m then HashImpl.minio
        else if max (max m a) c = a then HashImpl.minioAvx512
        else HashImpl.crypto) := rfl
  rw [hred]
  by_cases h1 : max (max m a) c = m
  · simp [h1]
  · rw [if_neg h1]
    by_cases h2 : max (max m a) c = a
    · rw [if_pos h2]
      have ham : ¬a = m := fun hh => h1 (by rw [h2, hh])
      simp [h1, h2, ham]
    · rw [if_neg h2]
      simp [h1, h2]

/-- Claim C10 witness: an exact three-way tie at rate 3 selects minio. -/
theorem SelectAlgo_tie_case_order_w :
    SelectAlgo ("") 3 3 3 = HashImpl.minio :=
  (SelectAlgo_tie_case_order 3 3 3).1.mpr (by norm_num)

end Syncthing
